import Mathlib

/-!
Verification development for the fuel-delivery order lifecycle core.

The definitions below are a shallow embedding of the order routes
(src/server/routes/orders.js: order creation, accept, status update,
rating; the payments router appended to that file: confirm-payment,
webhook, refund) and the admin status override (src/unnamed/part_003),
over the order document schema embedded in the client bundle
(src/client/src/pages/Home.js, orderSchema).

Machine conventions: timestamps are naturals (milliseconds), user ids are
naturals, currency amounts are exact rationals, HTTP responses are a
status code plus the response message string, the saved order, and the
list of emitted real-time events.
-/

namespace FuelDelivery

/-- Fuel type enum from the order schema. -/
inductive FuelType
  | petrol
  | diesel
deriving DecidableEq

/-- Order status enum from the order schema. -/
inductive OrderStatus
  | pending
  | confirmed
  | driver_assigned
  | driver_en_route
  | arrived
  | delivering
  | completed
  | cancelled
deriving DecidableEq

/-- Payment status enum from the order schema. -/
inductive PaymentStatus
  | pending
  | paid
  | failed
  | refunded
deriving DecidableEq

/-- Payment method enum from the order schema. -/
inductive PaymentMethod
  | card
  | cash
  | wallet
deriving DecidableEq

/-- User role tag, the userType field switched on by the route handlers. -/
inductive UserType
  | customer
  | driver
  | admin
deriving DecidableEq

/-- Latitude/longitude pair. -/
structure GeoPoint where
  latitude : ℚ
  longitude : ℚ
deriving DecidableEq

/-- tracking.driverAssigned milestone. -/
structure MsDriverAssigned where
  timestamp : Nat
  driverId : Nat
deriving DecidableEq

/-- tracking.driverEnRoute milestone. -/
structure MsDriverEnRoute where
  timestamp : Nat
  estimatedArrival : Nat
deriving DecidableEq

/-- tracking.arrived milestone. -/
structure MsArrived where
  timestamp : Nat
  location : Option GeoPoint
deriving DecidableEq

/-- tracking.delivering milestone. -/
structure MsDelivering where
  timestamp : Nat
deriving DecidableEq

/-- tracking.completed milestone. -/
structure MsCompleted where
  timestamp : Nat
  signature : Option String
  photo : Option String
deriving DecidableEq

/-- tracking.cancelled milestone. -/
structure MsCancelled where
  timestamp : Nat
  reason : Option String
  cancelledBy : UserType
deriving DecidableEq

/-- The per-milestone tracking timeline of an order.  Absent milestones are
none; orderPlaced defaults to the creation time. -/
structure Tracking where
  orderPlaced : Nat
  driverAssigned : Option MsDriverAssigned
  driverEnRoute : Option MsDriverEnRoute
  arrived : Option MsArrived
  delivering : Option MsDelivering
  completed : Option MsCompleted
  cancelled : Option MsCancelled
deriving DecidableEq

/-- One rating slot: score 1 to 5, optional comment, rated-at timestamp. -/
structure RatingSlot where
  score : Nat
  comment : Option String
  ratedAt : Nat
deriving DecidableEq

/-- The two one-shot rating slots of an order. -/
structure OrderRating where
  customerRating : Option RatingSlot
  driverRating : Option RatingSlot
deriving DecidableEq

/-- paymentDetails subdocument of an order. -/
structure PaymentDetails where
  transactionId : Option String
  stripePaymentIntentId : Option String
  paidAt : Option Nat
deriving DecidableEq

/-- The order document, restricted to the fields the verified routes read
or write. -/
structure Order where
  customer : Nat
  driver : Option Nat
  fuelType : FuelType
  quantity : ℚ
  pricePerLiter : ℚ
  totalAmount : ℚ
  deliveryFee : ℚ
  taxes : ℚ
  status : OrderStatus
  paymentStatus : PaymentStatus
  paymentMethod : PaymentMethod
  paymentDetails : PaymentDetails
  tracking : Tracking
  rating : OrderRating
  actualDeliveryTime : Option Nat
  adminNotes : Option String
deriving DecidableEq

/-- The authenticated requester as the auth middleware exposes it. -/
structure ReqUser where
  userType : UserType
  userId : Nat
deriving DecidableEq

/-- Socket room a real-time event is emitted to. -/
inductive Channel
  | customerRoom (id : Nat)
  | driverRoom (id : Nat)
  | everyone
deriving DecidableEq

/-- Real-time events and outbound gateway calls observable from a handler. -/
inductive Event
  | orderUpdate (ch : Channel) (status : OrderStatus)
  | newOrder
  | paymentConfirmed
  | paymentSuccess (ch : Channel)
  | refundProcessed (ch : Channel)
  | stripeRefundCall (intentId : String)
deriving DecidableEq

/-- Result of a route handler: HTTP status code, response message, the
order as persisted when the handler returns, and the emitted events. -/
structure StatusResult where
  code : Nat
  msg : String
  order : Order
  events : List Event
deriving DecidableEq

/-- The fields of the status-update request body. -/
structure StatusBody where
  status : OrderStatus
  location : Option GeoPoint
  signature : Option String
  photo : Option String
  cancelReason : Option String
deriving DecidableEq

/-- A payment intent as the gateway reports it. -/
structure StripeIntent where
  id : String
  status : String
deriving DecidableEq

/-- Driver profile fragment mutated by the rating aggregator; fields are
optional to mirror possibly-unset document fields, read back with a
zero default as in the source. -/
structure DriverDetails where
  rating : Option ℚ
  totalRatings : Option Nat
deriving DecidableEq

/-- Order creation price computation (POST slash, order creation):
price per liter snapshot by fuel type, base amount, flat delivery fee of
50, taxes at 18 percent of the base amount, and their sum as the total. -/
def placeOrder (customerId : Nat) (ft : FuelType) (q : ℚ) (pm : PaymentMethod)
    (now : Nat) : Order :=
  let pricePerLiter : ℚ := if ft = FuelType.petrol then 95.50 else 89.75
  let baseAmount : ℚ := q * pricePerLiter
  let deliveryFee : ℚ := 50
  let taxes : ℚ := baseAmount * 0.18
  let totalAmount : ℚ := baseAmount + deliveryFee + taxes
  { customer := customerId
    driver := none
    fuelType := ft
    quantity := q
    pricePerLiter := pricePerLiter
    totalAmount := totalAmount
    deliveryFee := deliveryFee
    taxes := taxes
    status := OrderStatus.pending
    paymentStatus := PaymentStatus.pending
    paymentMethod := pm
    paymentDetails := { transactionId := none, stripePaymentIntentId := none, paidAt := none }
    tracking := { orderPlaced := now, driverAssigned := none, driverEnRoute := none,
                  arrived := none, delivering := none, completed := none, cancelled := none }
    rating := { customerRating := none, driverRating := none }
    actualDeliveryTime := none
    adminNotes := none }

/-- PUT accept (driver accepts an order).  The guard and the updates are
those of the source: reject unless status is confirmed and no driver is
set, otherwise set the driver, move to driver_assigned, write the
driverAssigned milestone, and notify the customer room. -/
def acceptOrder (driverId : Nat) (now : Nat) (o : Order) : StatusResult :=
  if o.status ≠ OrderStatus.confirmed ∨ o.driver.isSome then
    { code := 400, msg := "Order not available for acceptance", order := o, events := [] }
  else
    let o' : Order :=
      { o with
        driver := some driverId
        status := OrderStatus.driver_assigned
        tracking := { o.tracking with
          driverAssigned := some { timestamp := now, driverId := driverId } } }
    { code := 200, msg := "Order accepted successfully", order := o',
      events := [Event.orderUpdate (Channel.customerRoom o.customer) OrderStatus.driver_assigned] }

/-- Whether a target status passes the status-update route body validation
(the isIn list of five statuses). -/
def statusUpdateAllowed : OrderStatus → Bool
  | OrderStatus.driver_en_route => true
  | OrderStatus.arrived => true
  | OrderStatus.delivering => true
  | OrderStatus.completed => true
  | OrderStatus.cancelled => true
  | _ => false

/-- PUT status (normal-path status update).  Mirrors the source: body
validation, then the two permission checks, then an unconditional write of
the target status with the milestone switch.  When the caller is a driver
and the order has no driver, the source dereferences the null driver
reference and the catch block answers 500 with the order untouched. -/
def updateOrderStatus (u : ReqUser) (b : StatusBody) (now : Nat) (o : Order) : StatusResult :=
  if statusUpdateAllowed b.status = false then
    { code := 400, msg := "Invalid status", order := o, events := [] }
  else if u.userType = UserType.driver ∧ o.driver = none then
    { code := 500, msg := "Server error updating order status", order := o, events := [] }
  else if u.userType = UserType.driver ∧ o.driver ≠ some u.userId then
    { code := 403, msg := "Not authorized to update this order", order := o, events := [] }
  else if u.userType = UserType.customer ∧ o.customer ≠ u.userId ∧
      b.status ≠ OrderStatus.cancelled then
    { code := 403, msg := "Customers can only cancel orders", order := o, events := [] }
  else
    let o' : Order :=
      match b.status with
      | OrderStatus.driver_en_route =>
          let ms : MsDriverEnRoute := { timestamp := now, estimatedArrival := now + 30 * 60 * 1000 }
          { o with
            status := OrderStatus.driver_en_route
            tracking := { o.tracking with driverEnRoute := some ms } }
      | OrderStatus.arrived =>
          let ms : MsArrived := { timestamp := now, location := b.location }
          { o with
            status := OrderStatus.arrived
            tracking := { o.tracking with arrived := some ms } }
      | OrderStatus.delivering =>
          let ms : MsDelivering := { timestamp := now }
          { o with
            status := OrderStatus.delivering
            tracking := { o.tracking with delivering := some ms } }
      | OrderStatus.completed =>
          let ms : MsCompleted := { timestamp := now, signature := b.signature, photo := b.photo }
          { o with
            status := OrderStatus.completed
            tracking := { o.tracking with completed := some ms }
            actualDeliveryTime := some now
            paymentStatus := if o.paymentMethod = PaymentMethod.cash then PaymentStatus.paid
              else o.paymentStatus }
      | OrderStatus.cancelled =>
          let ms : MsCancelled :=
            { timestamp := now, reason := b.cancelReason, cancelledBy := u.userType }
          { o with
            status := OrderStatus.cancelled
            tracking := { o.tracking with cancelled := some ms } }
      | s => { o with status := s }
    { code := 200, msg := "Order status updated successfully", order := o',
      events := Event.orderUpdate (Channel.customerRoom o.customer) b.status ::
        (match o'.driver with
         | some d => [Event.orderUpdate (Channel.driverRoom d) b.status]
         | none => []) }

/-- POST confirm-payment.  Owner check, then retrieve the intent from the
gateway (passed in as the retrieved intent) and, when the gateway reports
succeeded, mark paid, record the transaction id and paid-at time, and move
the order status to confirmed. -/
def confirmPayment (userId : Nat) (intent : StripeIntent) (now : Nat) (o : Order) : StatusResult :=
  if o.customer ≠ userId then
    { code := 403, msg := "Not authorized", order := o, events := [] }
  else if intent.status = "succeeded" then
    let o' : Order :=
      { o with
        paymentStatus := PaymentStatus.paid
        paymentDetails := { o.paymentDetails with
          transactionId := some intent.id, paidAt := some now }
        status := OrderStatus.confirmed }
    { code := 200, msg := "Payment confirmed successfully", order := o',
      events := [Event.paymentConfirmed] }
  else
    { code := 400, msg := "Payment not successful", order := o, events := [] }

/-- POST webhook, payment_intent.succeeded branch, applied to one order:
when the order's stored intent id matches the event's intent, mark paid,
record transaction id and paid-at, and set status confirmed. -/
def webhookPaymentSucceeded (intent : StripeIntent) (now : Nat) (o : Order) : Order :=
  if o.paymentDetails.stripePaymentIntentId = some intent.id then
    { o with
      paymentStatus := PaymentStatus.paid
      paymentDetails := { o.paymentDetails with
        transactionId := some intent.id, paidAt := some now }
      status := OrderStatus.confirmed }
  else o

/-- POST refund.  Permission check for customers, then the two eligibility
guards (must be paid, must not be completed), then the gateway refund call
and the refunded/cancelled updates with the cancellation milestone. -/
def processRefund (u : ReqUser) (reason : Option String) (now : Nat) (o : Order) : StatusResult :=
  if u.userType = UserType.customer ∧ o.customer ≠ u.userId then
    { code := 403, msg := "Not authorized", order := o, events := [] }
  else if o.paymentStatus ≠ PaymentStatus.paid then
    { code := 400, msg := "Order is not paid, cannot refund", order := o, events := [] }
  else if o.status = OrderStatus.completed then
    { code := 400, msg := "Cannot refund completed orders", order := o, events := [] }
  else
    match o.paymentDetails.stripePaymentIntentId with
    | some intentId =>
        let ms : MsCancelled :=
          { timestamp := now
            reason := some (reason.getD "Refund processed")
            cancelledBy := u.userType }
        let o' : Order :=
          { o with
            paymentStatus := PaymentStatus.refunded
            status := OrderStatus.cancelled
            tracking := { o.tracking with cancelled := some ms } }
        { code := 200, msg := "Refund processed successfully", order := o',
          events := [Event.stripeRefundCall intentId,
                     Event.refundProcessed (Channel.customerRoom o.customer)] }
    | none =>
        { code := 400, msg := "No payment record found for refund", order := o, events := [] }

/-- Driver running-average update from the rate route: read rating and
count with a zero default, fold in the new score, increment the count. -/
def applyRatingToDriver (d : DriverDetails) (score : Nat) : DriverDetails :=
  let currentRating : ℚ := d.rating.getD 0
  let totalRatings : Nat := d.totalRatings.getD 0
  let newTotalRatings : Nat := totalRatings + 1
  let newRating : ℚ := (currentRating * (totalRatings : ℚ) + (score : ℚ)) / (newTotalRatings : ℚ)
  { rating := some newRating, totalRatings := some newTotalRatings }

/-- Result of the rate route: response code and message, the saved order,
and the saved driver profile (when a driver user was loaded). -/
structure RateResult where
  code : Nat
  msg : String
  order : Order
  driver : Option DriverDetails
deriving DecidableEq

/-- POST rate.  Body validation (integer score 1 to 5), completed-order
guard, then per-role: ownership check, one-shot slot check, slot write;
the customer path additionally folds the score into the driver profile
when the order has a driver and that user exists. -/
def rateOrder (u : ReqUser) (score : Nat) (comment : Option String) (now : Nat)
    (o : Order) (drv : Option DriverDetails) : RateResult :=
  if score < 1 ∨ 5 < score then
    { code := 400, msg := "Rating must be between 1 and 5", order := o, driver := drv }
  else if o.status ≠ OrderStatus.completed then
    { code := 400, msg := "Can only rate completed orders", order := o, driver := drv }
  else if u.userType = UserType.customer then
    if o.customer ≠ u.userId then
      { code := 403, msg := "Not authorized to rate this order", order := o, driver := drv }
    else if o.rating.customerRating.isSome then
      { code := 400, msg := "Order already rated", order := o, driver := drv }
    else
      let o' : Order := { o with rating := { o.rating with
        customerRating := some { score := score, comment := comment, ratedAt := now } } }
      let drv' : Option DriverDetails :=
        if o.driver.isSome then drv.map (fun d => applyRatingToDriver d score) else drv
      { code := 200, msg := "Rating submitted successfully", order := o', driver := drv' }
  else if u.userType = UserType.driver then
    if o.driver ≠ some u.userId then
      { code := 403, msg := "Not authorized to rate this order", order := o, driver := drv }
    else if o.rating.driverRating.isSome then
      { code := 400, msg := "Order already rated", order := o, driver := drv }
    else
      { code := 200, msg := "Rating submitted successfully",
        order := { o with rating := { o.rating with
          driverRating := some { score := score, comment := comment, ratedAt := now } } },
        driver := drv }
  else
    { code := 200, msg := "Rating submitted successfully", order := o, driver := drv }

/-- PUT admin status override (src/unnamed/part_003): any of the eight
statuses is accepted, the status is written directly, an admin note is
recorded when a reason is given, and only the cancelled target writes a
tracking milestone. -/
def adminUpdateOrderStatus (status : OrderStatus) (reason : Option String) (now : Nat)
    (o : Order) : StatusResult :=
  let o1 : Order :=
    { o with
      status := status
      adminNotes := match reason with | some r => some r | none => o.adminNotes }
  let ms : MsCancelled :=
    { timestamp := now
      reason := some (reason.getD "Cancelled by admin")
      cancelledBy := UserType.admin }
  let o2 : Order :=
    if status = OrderStatus.cancelled then
      { o1 with tracking := { o1.tracking with cancelled := some ms } }
    else o1
  { code := 200, msg := "Order status updated successfully", order := o2,
    events := Event.orderUpdate (Channel.customerRoom o.customer) status ::
      (match o2.driver with
       | some d => [Event.orderUpdate (Channel.driverRoom d) status]
       | none => []) }

/-- Position of a status along the forward chain of the spec's state
machine, with cancelled outside the chain. -/
def chainIndex : OrderStatus → Nat
  | OrderStatus.pending => 0
  | OrderStatus.confirmed => 1
  | OrderStatus.driver_assigned => 2
  | OrderStatus.driver_en_route => 3
  | OrderStatus.arrived => 4
  | OrderStatus.delivering => 5
  | OrderStatus.completed => 6
  | OrderStatus.cancelled => 7

/-- Transition relation stated by the spec for non-admin operations:
one step forward along the adjacency chain, or a jump to cancelled from a
non-terminal state.  This definition follows the spec's words and exists
to be compared with the embedded route behaviour. -/
def specForwardOrCancel (s t : OrderStatus) : Bool :=
  if t = OrderStatus.cancelled then
    decide (s ≠ OrderStatus.completed ∧ s ≠ OrderStatus.cancelled)
  else
    decide (s ≠ OrderStatus.cancelled ∧ chainIndex t = chainIndex s + 1)

/-- Empty tracking timeline used by the concrete fixtures. -/
def baseTracking : Tracking :=
  { orderPlaced := 0, driverAssigned := none, driverEnRoute := none, arrived := none,
    delivering := none, completed := none, cancelled := none }

/-- A concrete card order of customer 1 with a stored payment intent,
still pending and unassigned; the commercial fields are the worked
example of the spec (petrol, 10 liters). -/
def baseOrder : Order :=
  { customer := 1
    driver := none
    fuelType := FuelType.petrol
    quantity := 10
    pricePerLiter := 95.50
    totalAmount := 1176.90
    deliveryFee := 50
    taxes := 171.90
    status := OrderStatus.pending
    paymentStatus := PaymentStatus.pending
    paymentMethod := PaymentMethod.card
    paymentDetails := { transactionId := none, stripePaymentIntentId := some "pi_1", paidAt := none }
    tracking := baseTracking
    rating := { customerRating := none, driverRating := none }
    actualDeliveryTime := none
    adminNotes := none }

/-- Status-update request body asking for driver_en_route with no extras. -/
def bodyEnRoute : StatusBody :=
  { status := OrderStatus.driver_en_route, location := none, signature := none,
    photo := none, cancelReason := none }

/-- Status-update request body asking for arrived with no extras. -/
def bodyArrived : StatusBody :=
  { status := OrderStatus.arrived, location := none, signature := none,
    photo := none, cancelReason := none }

/-- Status-update request body asking for cancelled with no extras. -/
def bodyCancelled : StatusBody :=
  { status := OrderStatus.cancelled, location := none, signature := none,
    photo := none, cancelReason := none }

/-- The completed order of customer 1 delivered by driver 7. -/
def completedOrder : Order :=
  { baseOrder with status := OrderStatus.completed, driver := some 7 }

/-- C1: the spec says a status only moves forward along the chain pending,
confirmed, driver_assigned, driver_en_route, arrived, delivering,
completed, or jumps to cancelled from a non-terminal state, with completed
and cancelled terminal for every non-admin operation.  The normal-path
status route has no reachability guard: on a completed order, the assigned
driver's request for driver_en_route is accepted with code 200 and moves
the status backward out of the terminal state, a transition the spec's
relation forbids. -/
theorem C1_completed_order_moves_backward :
    (updateOrderStatus { userType := UserType.driver, userId := 7 } bodyEnRoute 1000
        completedOrder).code = 200 ∧
    (updateOrderStatus { userType := UserType.driver, userId := 7 } bodyEnRoute 1000
        completedOrder).order.status = OrderStatus.driver_en_route ∧
    completedOrder.status = OrderStatus.completed ∧
    specForwardOrCancel OrderStatus.completed OrderStatus.driver_en_route = false := by
  decide

/-- C2: the spec says applying the paid effect twice leaves paidAt at the
value written by the first successful application.  The confirm-payment
route has no payment-status guard: a second confirm of the same succeeded
intent is accepted again and overwrites paidAt with the later time. -/
theorem C2_second_confirm_overwrites_paidAt :
    (confirmPayment 1 { id := "pi_1", status := "succeeded" } 100 baseOrder).order.paymentDetails.paidAt
        = some 100 ∧
    (confirmPayment 1 { id := "pi_1", status := "succeeded" } 200
        (confirmPayment 1 { id := "pi_1", status := "succeeded" } 100 baseOrder).order).code = 200 ∧
    (confirmPayment 1 { id := "pi_1", status := "succeeded" } 200
        (confirmPayment 1 { id := "pi_1", status := "succeeded" } 100 baseOrder).order).order.paymentDetails.paidAt
        = some 200 := by
  decide

/-- C4: the spec says a customer may cancel only their own order and that a
role or ownership mismatch is rejected with a permission error leaving the
order unchanged.  The route's customer check only fires when the target is
not cancelled, so customer 2 cancelling customer 1's pending order is
accepted with code 200 and the order is cancelled. -/
theorem C4_foreign_customer_cancels :
    baseOrder.customer = 1 ∧
    (updateOrderStatus { userType := UserType.customer, userId := 2 } bodyCancelled 500
        baseOrder).code = 200 ∧
    (updateOrderStatus { userType := UserType.customer, userId := 2 } bodyCancelled 500
        baseOrder).order.status = OrderStatus.cancelled := by
  decide

/-- The order of customer 1, assigned to driver 7, currently arrived, with
the arrived milestone written at time 100. -/
def arrivedOrder : Order :=
  { baseOrder with
    status := OrderStatus.arrived
    driver := some 7
    tracking := { baseTracking with arrived := some { timestamp := 100, location := none } } }

/-- C5: the spec says a milestone's timestamp, once written, is never
overwritten and each milestone is written at most once per order.  The
status route rewrites the milestone of the requested status
unconditionally: the assigned driver repeating arrived at time 200 on an
order whose arrived milestone was written at time 100 is accepted and the
milestone timestamp changes to 200. -/
theorem C5_arrived_milestone_overwritten :
    arrivedOrder.tracking.arrived = some { timestamp := 100, location := none } ∧
    (updateOrderStatus { userType := UserType.driver, userId := 7 } bodyArrived 200
        arrivedOrder).code = 200 ∧
    (updateOrderStatus { userType := UserType.driver, userId := 7 } bodyArrived 200
        arrivedOrder).order.tracking.arrived = some { timestamp := 200, location := none } := by
  decide

/-- C3: the driver-initiated accept succeeds exactly when the order is
confirmed and has no driver; on success it sets the driver to the caller,
moves the status to driver_assigned, writes the driverAssigned milestone
with the timestamp and the driver id, and notifies the customer room;
otherwise the order is unchanged and the caller gets the 400 conflict
rejection. -/
theorem C3_accept_success_iff (driverId now : Nat) (o : Order) :
    ((acceptOrder driverId now o).code = 200 ↔
      o.status = OrderStatus.confirmed ∧ o.driver = none) ∧
    (o.status = OrderStatus.confirmed → o.driver = none →
      (acceptOrder driverId now o).order =
        { o with
          driver := some driverId
          status := OrderStatus.driver_assigned
          tracking := { o.tracking with
            driverAssigned := some { timestamp := now, driverId := driverId } } } ∧
      (acceptOrder driverId now o).events =
        [Event.orderUpdate (Channel.customerRoom o.customer) OrderStatus.driver_assigned]) ∧
    (¬ (o.status = OrderStatus.confirmed ∧ o.driver = none) →
      (acceptOrder driverId now o).order = o ∧ (acceptOrder driverId now o).code = 400) := by
  have hcond : (o.status ≠ OrderStatus.confirmed ∨ o.driver.isSome = true) ↔
      ¬ (o.status = OrderStatus.confirmed ∧ o.driver = none) := by
    cases h : o.driver <;> simp [h]
  by_cases h : o.status = OrderStatus.confirmed ∧ o.driver = none
  · have hnc : ¬ (o.status ≠ OrderStatus.confirmed ∨ o.driver.isSome = true) :=
      fun hl => hcond.mp hl h
    refine ⟨?_, ?_, ?_⟩
    · simp only [acceptOrder, if_neg hnc]
      simp [h.1, h.2]
    · intro _ _
      simp [acceptOrder, if_neg hnc]
    · intro hn
      exact absurd h hn
  · have hc : o.status ≠ OrderStatus.confirmed ∨ o.driver.isSome = true := hcond.mpr h
    refine ⟨?_, ?_, ?_⟩
    · simp only [acceptOrder, if_pos hc]
      simp [h]
    · intro h1 h2
      exact absurd ⟨h1, h2⟩ h
    · intro _
      simp [acceptOrder, if_pos hc]

/-- The base order moved to confirmed, ready for acceptance. -/
def confirmedOrder : Order := { baseOrder with status := OrderStatus.confirmed }

/-- Witness for C3: driver 7 accepts the confirmed unassigned order at
time 5 and the success effects hold. -/
theorem C3_accept_success_iff_witness :
    (acceptOrder 7 5 confirmedOrder).order =
      { confirmedOrder with
        driver := some 7
        status := OrderStatus.driver_assigned
        tracking := { confirmedOrder.tracking with
          driverAssigned := some { timestamp := 5, driverId := 7 } } } ∧
    (acceptOrder 7 5 confirmedOrder).events =
      [Event.orderUpdate (Channel.customerRoom confirmedOrder.customer)
        OrderStatus.driver_assigned] :=
  (C3_accept_success_iff 7 5 confirmedOrder).2.1 rfl rfl

/-- C6: for every placed order, the snapshotted unit price is 95.50 for
petrol and 89.75 for diesel, and the stored total is quantity times that
snapshotted unit price, plus the flat delivery fee of 50, plus 18 percent
tax on the base amount; for petrol at quantity 10 the total is exactly
1176.90. -/
theorem C6_total_amount (customerId : Nat) (ft : FuelType) (q : ℚ) (pm : PaymentMethod)
    (now : Nat) :
    (placeOrder customerId ft q pm now).pricePerLiter
        = (if ft = FuelType.petrol then (95.50 : ℚ) else 89.75) ∧
    (placeOrder customerId ft q pm now).totalAmount
        = q * (placeOrder customerId ft q pm now).pricePerLiter + 50
          + (18 / 100) * (q * (placeOrder customerId ft q pm now).pricePerLiter) ∧
    (placeOrder customerId FuelType.petrol 10 pm now).totalAmount = 1176.90 := by
  refine ⟨rfl, ?_, ?_⟩
  · cases ft
    · show q * 95.50 + 50 + q * 95.50 * 0.18
          = q * 95.50 + 50 + (18 / 100) * (q * 95.50)
      norm_num
      ring
    · show q * 89.75 + 50 + q * 89.75 * 0.18
          = q * 89.75 + 50 + (18 / 100) * (q * 89.75)
      norm_num
      ring
  · show (10 : ℚ) * 95.50 + 50 + 10 * 95.50 * 0.18 = 1176.90
    norm_num

/-- C10: when a driver-role caller hits the status route on an order whose
driver is unset, the null driver reference is dereferenced in the
permission check, so the catch block answers the generic 500 server error
and the order is unchanged. -/
theorem C10_null_driver_is_server_error (u : ReqUser) (b : StatusBody) (now : Nat) (o : Order)
    (hu : u.userType = UserType.driver) (hd : o.driver = none)
    (hb : statusUpdateAllowed b.status = true) :
    (updateOrderStatus u b now o).code = 500 ∧
    (updateOrderStatus u b now o).order = o ∧
    (updateOrderStatus u b now o).msg = "Server error updating order status" := by
  simp [updateOrderStatus, hu, hd, hb]

/-- Witness for C10: a driver requests driver_en_route on the unassigned
base order and receives the 500 with the order unchanged. -/
theorem C10_null_driver_is_server_error_witness :
    (updateOrderStatus { userType := UserType.driver, userId := 7 } bodyEnRoute 0
        baseOrder).code = 500 ∧
    (updateOrderStatus { userType := UserType.driver, userId := 7 } bodyEnRoute 0
        baseOrder).order = baseOrder ∧
    (updateOrderStatus { userType := UserType.driver, userId := 7 } bodyEnRoute 0
        baseOrder).msg = "Server error updating order status" :=
  C10_null_driver_is_server_error { userType := UserType.driver, userId := 7 } bodyEnRoute 0
    baseOrder rfl rfl rfl

/-- C7: when the customer rates the driver with score s on a completed
order, the saved driver profile carries the running average
(old average times old count plus s) over (old count plus 1) and the
incremented count, both returned together by the handler; and folding the
ratings 5, 3, 4 into a profile starting at average 0 and count 0 yields
average 4 and count 3. -/
theorem C7_customer_rating_updates_average (u : ReqUser) (s : Nat) (c : Option String)
    (now : Nat) (o : Order) (d : Nat) (drv : DriverDetails)
    (hu : u.userType = UserType.customer) (hown : o.customer = u.userId)
    (hst : o.status = OrderStatus.completed) (hslot : o.rating.customerRating = none)
    (hdrv : o.driver = some d) (h1 : 1 ≤ s) (h5 : s ≤ 5) :
    (rateOrder u s c now o (some drv)).code = 200 ∧
    (rateOrder u s c now o (some drv)).driver = some (applyRatingToDriver drv s) ∧
    (applyRatingToDriver drv s).rating =
      some ((drv.rating.getD 0 * (drv.totalRatings.getD 0 : ℚ) + (s : ℚ)) /
        ((drv.totalRatings.getD 0 : ℚ) + 1)) ∧
    (applyRatingToDriver drv s).totalRatings = some (drv.totalRatings.getD 0 + 1) ∧
    List.foldl applyRatingToDriver { rating := some 0, totalRatings := some 0 } [5, 3, 4]
      = { rating := some 4, totalRatings := some 3 } := by
  have hv : ¬ (s < 1 ∨ 5 < s) := by omega
  have hv0 : ¬ (s = 0 ∨ 5 < s) := by omega
  refine ⟨?_, ?_, ?_, ?_, by norm_num [List.foldl, applyRatingToDriver]⟩
  · simp [rateOrder, hv, hv0, hu, hown, hst, hslot, hdrv]
  · simp [rateOrder, hv, hv0, hu, hown, hst, hslot, hdrv]
  · simp only [applyRatingToDriver]
    norm_cast
  · simp only [applyRatingToDriver]

/-- Witness for C7: customer 1 rates the completed order of driver 7 with
score 5 against a fresh profile; the handler succeeds and returns the
folded profile. -/
theorem C7_customer_rating_updates_average_witness :
    (rateOrder { userType := UserType.customer, userId := 1 } 5 none 10 completedOrder
        (some { rating := some 0, totalRatings := some 0 })).code = 200 ∧
    (rateOrder { userType := UserType.customer, userId := 1 } 5 none 10 completedOrder
        (some { rating := some 0, totalRatings := some 0 })).driver =
      some (applyRatingToDriver { rating := some 0, totalRatings := some 0 } 5) :=
  ⟨(C7_customer_rating_updates_average { userType := UserType.customer, userId := 1 } 5 none 10
      completedOrder 7 { rating := some 0, totalRatings := some 0 }
      rfl rfl rfl rfl rfl (by decide) (by decide)).1,
   (C7_customer_rating_updates_average { userType := UserType.customer, userId := 1 } 5 none 10
      completedOrder 7 { rating := some 0, totalRatings := some 0 }
      rfl rfl rfl rfl rfl (by decide) (by decide)).2.1⟩

/-- C8: each rating slot is one-shot.  For either role, when that role's
slot is already filled the handler leaves the order and the driver profile
unchanged and does not succeed; and when the remaining preconditions hold
(completed order, matching participant, valid score) the rejection is
exactly the 400 already-rated response. -/
theorem C8_rating_one_shot (u : ReqUser) (s : Nat) (c : Option String) (now : Nat)
    (o : Order) (drv : Option DriverDetails) :
    (u.userType = UserType.customer → o.rating.customerRating.isSome →
      (rateOrder u s c now o drv).order = o ∧ (rateOrder u s c now o drv).driver = drv ∧
      (rateOrder u s c now o drv).code ≠ 200 ∧
      (o.status = OrderStatus.completed → o.customer = u.userId → 1 ≤ s → s ≤ 5 →
        (rateOrder u s c now o drv).code = 400 ∧
        (rateOrder u s c now o drv).msg = "Order already rated")) ∧
    (u.userType = UserType.driver → o.rating.driverRating.isSome →
      (rateOrder u s c now o drv).order = o ∧ (rateOrder u s c now o drv).driver = drv ∧
      (rateOrder u s c now o drv).code ≠ 200 ∧
      (o.status = OrderStatus.completed → o.driver = some u.userId → 1 ≤ s → s ≤ 5 →
        (rateOrder u s c now o drv).code = 400 ∧
        (rateOrder u s c now o drv).msg = "Order already rated")) := by
  constructor
  · intro hu hslot
    simp only [rateOrder, hu]
    split_ifs with hv hst hown <;> simp_all
    omega
  · intro hu hslot
    simp only [rateOrder, hu]
    split_ifs with hv hst hown <;> simp_all
    omega

/-- The completed order with the customer slot already rated. -/
def ratedOrder : Order :=
  { completedOrder with rating :=
    { customerRating := some { score := 5, comment := none, ratedAt := 10 }
      driverRating := none } }

/-- Witness for C8: customer 1 rates the already-rated completed order a
second time and receives the 400 already-rated rejection with the order
unchanged. -/
theorem C8_rating_one_shot_witness :
    (rateOrder { userType := UserType.customer, userId := 1 } 4 none 20 ratedOrder none).order
        = ratedOrder ∧
    (rateOrder { userType := UserType.customer, userId := 1 } 4 none 20 ratedOrder none).code
        = 400 ∧
    (rateOrder { userType := UserType.customer, userId := 1 } 4 none 20 ratedOrder none).msg
        = "Order already rated" :=
  ⟨((C8_rating_one_shot { userType := UserType.customer, userId := 1 } 4 none 20 ratedOrder
      none).1 rfl rfl).1,
   (((C8_rating_one_shot { userType := UserType.customer, userId := 1 } 4 none 20 ratedOrder
      none).1 rfl rfl).2.2.2 rfl rfl (by decide) (by decide)).1,
   (((C8_rating_one_shot { userType := UserType.customer, userId := 1 } 4 none 20 ratedOrder
      none).1 rfl rfl).2.2.2 rfl rfl (by decide) (by decide)).2⟩

/-- C9: refund succeeds only when the order is paid and not completed; a
failed guard leaves the order unchanged with a non-200 response; success
calls the gateway refund for the stored intent, marks the payment
refunded, cancels the order, and writes the cancellation milestone with
the caller's role. -/
theorem C9_refund_guards (u : ReqUser) (reason : Option String) (now : Nat) (o : Order) :
    (¬ (o.paymentStatus = PaymentStatus.paid ∧ o.status ≠ OrderStatus.completed) →
      (processRefund u reason now o).order = o ∧ (processRefund u reason now o).code ≠ 200) ∧
    ((processRefund u reason now o).code = 200 →
      o.paymentStatus = PaymentStatus.paid ∧ o.status ≠ OrderStatus.completed ∧
      (processRefund u reason now o).order.paymentStatus = PaymentStatus.refunded ∧
      (processRefund u reason now o).order.status = OrderStatus.cancelled ∧
      (processRefund u reason now o).order.tracking.cancelled =
        some { timestamp := now, reason := some (reason.getD "Refund processed"), cancelledBy := u.userType } ∧
      ∃ pid, o.paymentDetails.stripePaymentIntentId = some pid ∧
        Event.stripeRefundCall pid ∈ (processRefund u reason now o).events) := by
  constructor
  · intro hn
    unfold processRefund
    split_ifs with hperm hpaid hcomp
    · exact ⟨rfl, by simp⟩
    · exact ⟨rfl, by simp⟩
    · exact ⟨rfl, by simp⟩
    · exact absurd ⟨not_not.mp hpaid, hcomp⟩ hn
  · intro hs
    unfold processRefund at hs ⊢
    split_ifs at hs ⊢ with hperm hpaid hcomp
    · simp at hs
    · simp at hs
    · simp at hs
    · rcases hpi : o.paymentDetails.stripePaymentIntentId with _ | pid
      · rw [hpi] at hs
        simp at hs
      · refine ⟨not_not.mp hpaid, hcomp, ?_, ?_, ?_, pid, rfl, ?_⟩ <;> simp

/-- The base order after a successful card payment: paid and confirmed. -/
def paidOrder : Order :=
  { baseOrder with paymentStatus := PaymentStatus.paid, status := OrderStatus.confirmed }

/-- Witness for C9: an admin refunds the paid confirmed order at time 50
and the success effects hold. -/
theorem C9_refund_guards_witness :
    paidOrder.paymentStatus = PaymentStatus.paid ∧
    paidOrder.status ≠ OrderStatus.completed ∧
    (processRefund { userType := UserType.admin, userId := 0 } none 50
        paidOrder).order.paymentStatus = PaymentStatus.refunded ∧
    (processRefund { userType := UserType.admin, userId := 0 } none 50
        paidOrder).order.status = OrderStatus.cancelled ∧
    (processRefund { userType := UserType.admin, userId := 0 } none 50
        paidOrder).order.tracking.cancelled =
      some { timestamp := 50, reason := some "Refund processed", cancelledBy := UserType.admin } ∧
    ∃ pid, paidOrder.paymentDetails.stripePaymentIntentId = some pid ∧
      Event.stripeRefundCall pid ∈
        (processRefund { userType := UserType.admin, userId := 0 } none 50 paidOrder).events :=
  (C9_refund_guards { userType := UserType.admin, userId := 0 } none 50 paidOrder).2 (by decide)

end FuelDelivery
